import Mathlib

/-!
Shallow embedding of the GPU-pod fleet manager in `src/core/types.py`,
`src/core/pod.py` and `src/core/pod_manager.py`, together with theorems
settling the specification claims about it.

Conventions used throughout:
* Python dicts (which preserve insertion order) are embedded as association
  lists `List (String × Prompt)`; `next(iter(d))` is the head key.
* Wall-clock timestamps are embedded as `Int`, float arithmetic of the
  autoscaler as `ℚ`.
* Remote HTTP calls are embedded as oracle functions passed as parameters:
  `attempt i` is the observable outcome of the i-th iteration of the
  corresponding retry loop.
* Loops bounded by wall-clock timeouts are embedded with an explicit fuel
  counting the polling iterations the timeout window admits.
-/

/-- `PodState` enum from `src/core/types.py`. -/
inductive PodState where
  | Creating
  | Starting
  | Processing
  | Free
  | Stopped
  | Terminated
deriving DecidableEq, Repr

/-- `PodInfo` from `src/core/types.py`: port mappings and a public ip. -/
structure PodInfo where
  port_mappings : List (String × Nat)
  public_ip : String
deriving DecidableEq, Repr

/-- Payload of a `PromptResult`: either a plain message string (the error
    paths) or the success payload holding content bytes and a media type
    (`src/core/types.py`, `PromptResult.data`). -/
inductive PromptData where
  | msg (s : String)
  | payload (content : String) (media_type : String)
deriving DecidableEq, Repr

/-- `PromptResult` from `src/core/types.py`. -/
structure PromptResult where
  status : String
  data : PromptData
deriving DecidableEq, Repr

/-- `Prompt` from `src/core/types.py`. Its `__init__` stores exactly `url`,
    `workflow_id` and `result` (initially `None`); there is no `start_time`
    attribute. -/
structure Prompt where
  url : String
  workflow_id : Int
  result : Option PromptResult
deriving DecidableEq, Repr

/-- Outcome of one test of the polling-loop branch chain at the top of
    `Pod.queue` (`src/core/pod.py` lines 320-333): proceed to the POST,
    sleep-and-poll again, return the "Pod is not working." error, or fall
    through and re-test without sleeping. -/
inductive QueueWaitStep where
  | proceed
  | wait
  | errorNotWorking
  | spin
deriving DecidableEq, Repr

/-- Python truthiness of a `PodState` enum member: enum members are truthy,
    so the bare expression `PodState.Stopped` in a boolean context is `True`. -/
def podStateTruthy (_s : PodState) : Bool := true

/-- The branch chain of the wait loop in `Pod.queue` (`src/core/pod.py`
    lines 321-333), applied to the observed `state` and `pod_info`.
    The last tested condition is the source's
    `self.state == PodState.Terminated or PodState.Stopped`, whose right
    operand is the bare enum member. -/
def Pod.queueWaitStep (state : PodState) (pod_info : Option PodInfo) : QueueWaitStep :=
  if state = PodState.Free ∧ pod_info.isSome then QueueWaitStep.proceed
  else if state = PodState.Creating ∨ state = PodState.Starting ∨ state = PodState.Processing then
    QueueWaitStep.wait
  else if state = PodState.Terminated ∨ podStateTruthy PodState.Stopped then
    QueueWaitStep.errorNotWorking
  else QueueWaitStep.spin

/-- Python exceptions observable in the embedded fragments. -/
inductive PyExn where
  | attributeError (attr : String)
  | stopIteration
  | typeError
deriving DecidableEq, Repr

/-- Values an attribute lookup on a `Prompt` instance can produce. -/
inductive PromptAttrVal where
  | aStr (s : String)
  | aInt (n : Int)
  | aResult (r : Option PromptResult)
deriving DecidableEq, Repr

/-- Python attribute lookup on a `Prompt` instance. The class
    (`src/core/types.py`) sets `url`, `workflow_id` and `result` in
    `__init__`, and no code in the repository assigns any other attribute,
    so any other name raises `AttributeError`. -/
def promptGetAttr (p : Prompt) : String → Except PyExn PromptAttrVal
  | "url" => Except.ok (PromptAttrVal.aStr p.url)
  | "workflow_id" => Except.ok (PromptAttrVal.aInt p.workflow_id)
  | "result" => Except.ok (PromptAttrVal.aResult p.result)
  | a => Except.error (PyExn.attributeError a)

/-- Using an attribute value as a number (as in
    `current_time - prompt.start_time`): only int-valued attributes admit
    arithmetic, anything else is a `TypeError`. -/
def attrAsNum : PromptAttrVal → Except PyExn Int
  | PromptAttrVal.aInt n => Except.ok n
  | _ => Except.error PyExn.typeError

/-- The list comprehension
    `[key for key, prompt in m.items() if current_time - prompt.start_time > timeout]`
    from `PodManager._clear_prompts` (`src/core/pod_manager.py` lines
    344-351). Exceptions raised while evaluating the filter propagate. -/
def PodManager.expiredKeys (m : List (String × Prompt)) (now timeout : Int) :
    Except PyExn (List String) :=
  match m with
  | [] => Except.ok []
  | (k, p) :: rest =>
    match promptGetAttr p "start_time" with
    | Except.error e => Except.error e
    | Except.ok v =>
      match attrAsNum v with
      | Except.error e => Except.error e
      | Except.ok st =>
        match PodManager.expiredKeys rest now timeout with
        | Except.error e => Except.error e
        | Except.ok ks => Except.ok (if timeout < now - st then k :: ks else ks)

/-- Removing a list of keys from a mapping (`m.pop(key, None)` for each
    expired key, lines 353-360). -/
def PodManager.removeKeys (m : List (String × Prompt)) (ks : List String) :
    List (String × Prompt) :=
  m.filter (fun kv => !(ks.contains kv.1))

/-- One iteration of the `PodManager._clear_prompts` reaper body
    (`src/core/pod_manager.py` lines 341-360): compute the expired keys of
    the three mappings, then drop them. An exception raised anywhere in the
    body propagates out of the iteration (and kills the reaper thread). -/
def PodManager.clearPromptsIter
    (queued processing completed : List (String × Prompt)) (now timeout : Int) :
    Except PyExn (List (String × Prompt) × List (String × Prompt) × List (String × Prompt)) :=
  match PodManager.expiredKeys queued now timeout with
  | Except.error e => Except.error e
  | Except.ok kq =>
    match PodManager.expiredKeys processing now timeout with
    | Except.error e => Except.error e
    | Except.ok kp =>
      match PodManager.expiredKeys completed now timeout with
      | Except.error e => Except.error e
      | Except.ok kc =>
        Except.ok (PodManager.removeKeys queued kq,
          PodManager.removeKeys processing kp,
          PodManager.removeKeys completed kc)

/-- `next(iter(d))` on the queued mapping (`src/core/pod_manager.py` line
    255): the first (oldest, insertion order) key, raising `StopIteration`
    when the dict is empty. -/
def PodManager.nextIterDict (m : List (String × Prompt)) : Except PyExn String :=
  match m with
  | [] => Except.error PyExn.stopIteration
  | (k, _) :: _ => Except.ok k

/-- Program counter of the pipeline a single prompt id travels after being
    registered in `queued`: `idle` = waiting in `queued` for the control
    loop; `popped` = the control loop popped it from `queued`
    (`src/core/pod_manager.py` line 256) and started a dispatch thread, but
    the thread has not run yet; `registered` = the thread put it into
    `processing` (line 316) and `pod.queue` is running; `afterPop` = the
    thread popped it from `processing` (line 320 or 328) and has not yet
    inserted it into `completed`; `done` = the thread finished. -/
inductive DispatchPC where
  | idle
  | popped
  | registered
  | afterPop
  | done
deriving DecidableEq, Repr

/-- Observable situation of one prompt id: membership in each of the three
    mappings, plus the dispatch pipeline's program counter. -/
structure PromptLife where
  inQueued : Bool
  inProcessing : Bool
  inCompleted : Bool
  pc : DispatchPC
deriving DecidableEq, Repr

/-- Atomic events of the code that mention a given prompt id. Mutations of
    the three dicts are individually atomic (CPython), but no lock spans the
    pop at `src/core/pod_manager.py` line 256 and the insert at line 316,
    nor the pop at line 320 and the insert at line 325. The reaper
    (`_clear_prompts`) may drop the id from any mapping at any time. -/
inductive PromptStep : PromptLife → PromptLife → Prop where
  | pop (s : PromptLife) : s.pc = DispatchPC.idle → s.inQueued = true →
      PromptStep s { s with inQueued := false, pc := DispatchPC.popped }
  | register (s : PromptLife) : s.pc = DispatchPC.popped →
      PromptStep s { s with inProcessing := true, pc := DispatchPC.registered }
  | popProcessingFound (s : PromptLife) : s.pc = DispatchPC.registered →
      s.inProcessing = true →
      PromptStep s { s with inProcessing := false, pc := DispatchPC.afterPop }
  | popProcessingMissing (s : PromptLife) : s.pc = DispatchPC.registered →
      s.inProcessing = false →
      PromptStep s { s with pc := DispatchPC.done }
  | insertCompleted (s : PromptLife) : s.pc = DispatchPC.afterPop →
      PromptStep s { s with inCompleted := true, pc := DispatchPC.done }
  | consume (s : PromptLife) : s.inCompleted = true →
      PromptStep s { s with inCompleted := false }
  | reapQueued (s : PromptLife) : PromptStep s { s with inQueued := false }
  | reapProcessing (s : PromptLife) : PromptStep s { s with inProcessing := false }
  | reapCompleted (s : PromptLife) : PromptStep s { s with inCompleted := false }

/-- State of a prompt id immediately after `PodManager.queue_prompt`
    registered it in `queued` (`src/core/pod_manager.py` line 370). -/
def promptLifeInit : PromptLife :=
  { inQueued := true, inProcessing := false, inCompleted := false, pc := DispatchPC.idle }

/-- States of a prompt id reachable from its registration. -/
inductive PromptReachable : PromptLife → Prop where
  | init : PromptReachable promptLifeInit
  | step (s t : PromptLife) : PromptReachable s → PromptStep s t → PromptReachable t

/-- Number of the three mappings currently holding the prompt id. -/
def memCount (s : PromptLife) : Nat :=
  (if s.inQueued then 1 else 0) + (if s.inProcessing then 1 else 0) +
    (if s.inCompleted then 1 else 0)

/-- A dispatch of the prompt is in flight: the control loop has handed it to
    a dispatch thread that has not finished with it. -/
def dispatchInFlight (s : PromptLife) : Bool :=
  s.pc == DispatchPC.popped || s.pc == DispatchPC.registered || s.pc == DispatchPC.afterPop

/-- Auxiliary invariant tying a prompt's pipeline position to the mappings
    that can still hold its id. -/
def promptLifeInv (s : PromptLife) : Prop :=
  match s.pc with
  | DispatchPC.idle => s.inProcessing = false ∧ s.inCompleted = false
  | DispatchPC.popped => s.inQueued = false ∧ s.inProcessing = false ∧ s.inCompleted = false
  | DispatchPC.registered => s.inQueued = false ∧ s.inCompleted = false
  | DispatchPC.afterPop => s.inQueued = false ∧ s.inProcessing = false ∧ s.inCompleted = false
  | DispatchPC.done => s.inQueued = false ∧ s.inProcessing = false

/-- Dispatch bookkeeping of one pod: its `is_working` flag, the number of
    dispatch threads the control loop has started for it
    (`src/core/pod_manager.py` lines 260-265) that have not yet executed
    `pod.is_working = True` (line 317), and the number that have set the
    flag and not yet cleared it (lines 321 and 327). -/
structure PodLease where
  working : Bool
  spawnedNotStarted : Nat
  running : Nat
deriving DecidableEq, Repr

/-- Atomic events of the dispatch machinery for one pod. `spawn` is the
    control loop passing the `if pod.is_working: continue` check (line 246)
    and starting a thread; `start` is that thread executing
    `pod.is_working = True` (line 317); `finish` is the thread clearing the
    flag (line 321 or 327). -/
inductive LeaseStep : PodLease → PodLease → Prop where
  | spawn (s : PodLease) : s.working = false →
      LeaseStep s { s with spawnedNotStarted := s.spawnedNotStarted + 1 }
  | start (s : PodLease) : 0 < s.spawnedNotStarted →
      LeaseStep s ⟨true, s.spawnedNotStarted - 1, s.running + 1⟩
  | finish (s : PodLease) : 0 < s.running →
      LeaseStep s ⟨false, s.spawnedNotStarted, s.running - 1⟩

/-- A pod with no dispatch activity. -/
def podLeaseInit : PodLease := { working := false, spawnedNotStarted := 0, running := 0 }

/-- Lease states reachable from an idle pod. -/
inductive LeaseReachable : PodLease → Prop where
  | init : LeaseReachable podLeaseInit
  | step (s t : PodLease) : LeaseReachable s → LeaseStep s t → LeaseReachable t

/-- Number of dispatch tasks currently in existence for the pod. -/
def inFlightTasks (s : PodLease) : Nat := s.spawnedNotStarted + s.running

/-- The per-pod attributes the dispatch scan of `PodManager._background_work`
    reads (`src/core/pod_manager.py` lines 235-253). `pid` is an identity
    tag distinguishing pods. -/
structure PodView where
  pid : Nat
  state : PodState
  is_working : Bool
  latest_updated_time : Int
deriving DecidableEq, Repr

/-- The Python sort key
    `(not pod.is_working, state == Free, state == Starting, state == Creating,
      latest_updated_time)`
    (lines 237-243). The four leading booleans are encoded as the bits of a
    single `Nat` (lexicographic order on the boolean 4-tuple coincides with
    numeric order on the encoding), paired with the timestamp. -/
def dispatchKey (p : PodView) : Nat × Int :=
  ((if p.is_working then 0 else 8) + (if p.state = PodState.Free then 4 else 0) +
    (if p.state = PodState.Starting then 2 else 0) +
    (if p.state = PodState.Creating then 1 else 0),
    p.latest_updated_time)

/-- Lexicographic `≤` on the (Nat, Int) key pairs, as Python compares the
    key tuples. -/
def keyLex (a b : Nat × Int) : Bool :=
  a.1 < b.1 || (a.1 == b.1 && a.2 ≤ b.2)

/-- Comparison handed to the sort: `a` sorts before `b` iff
    `dispatchKey b ≤ dispatchKey a`; `sorted(..., reverse=True)` puts the
    largest key first. -/
def podGE (a b : PodView) : Bool := keyLex (dispatchKey b) (dispatchKey a)

/-- The `continue` filters of the dispatch scan (lines 246-253): skip pods
    whose `is_working` flag is set, skip `Terminated` pods, and for a
    `Stopped` pod call `resume()` and skip it when that fails. `resumeOk`
    is the oracle for the provider's answer to that `resume()` call. -/
def dispatchAccept (resumeOk : PodView → Bool) (p : PodView) : Bool :=
  !p.is_working && !(p.state == PodState.Terminated) &&
    (!(p.state == PodState.Stopped) || resumeOk p)

/-- The pod the dispatch scan settles on: the first acceptable pod of the
    descending-key sort (lines 235-253). -/
def selectPod (resumeOk : PodView → Bool) (pods : List PodView) : Option PodView :=
  (pods.mergeSort podGE).find? (dispatchAccept resumeOk)

/-- One iteration of the dispatch scan: pick a pod, then pop the oldest
    queued entry (`next(iter(queued))`, line 255-256) and hand
    `(pod, key, prompt)` to a dispatch thread. The empty-queue case of the
    pop is the `StopIteration` situation treated under C4. -/
def dispatchOnce (resumeOk : PodView → Bool) (pods : List PodView)
    (queued : List (String × Prompt)) :
    Option (PodView × String × Prompt) × List (String × Prompt) :=
  match selectPod resumeOk pods with
  | none => (none, queued)
  | some pod =>
    match queued with
    | [] => (none, queued)
    | (k, pr) :: rest => (some (pod, k, pr), rest)

/-- Autoscaler configuration constants read by `PodManager._calc_num_pods`
    (the field name keeps the source's spelling of the sensitivity
    constant). -/
structure ScalerConfig where
  POD_MIN_NUM : Int
  POD_MAX_NUM : Int
  POD_SCALING_SENSIVITY : ℚ
deriving DecidableEq, Repr

/-- Append to a `collections.deque` with a `maxlen` bound: the oldest
    entries are evicted from the left once the bound is exceeded. -/
def boundedAppend (maxlen : Nat) (h : List ℚ) (x : ℚ) : List ℚ :=
  let h2 := h ++ [x]
  if h2.length ≤ maxlen then h2 else h2.drop (h2.length - maxlen)

/-- `np.average` of the samples. -/
def npAverage (l : List ℚ) : ℚ := l.sum / l.length

/-- Python `max` over the samples (the empty case never arises in
    `_calc_num_pods`: the current sample was just appended). -/
def pyMax (l : List ℚ) : ℚ :=
  match l with
  | [] => 0
  | x :: xs => xs.foldl max x

/-- Python `round`: round half to even. -/
def pyRound (q : ℚ) : Int :=
  if q - ⌊q⌋ < 1/2 then ⌊q⌋
  else if 1/2 < q - ⌊q⌋ then ⌊q⌋ + 1
  else if ⌊q⌋ % 2 = 0 then ⌊q⌋ else ⌊q⌋ + 1

/-- `PodManager._calc_num_pods` (`src/core/pod_manager.py` lines 156-166)
    with the mutable pieces passed explicitly: append the current sample
    `len(queued) + len(processing)` to the bounded history, then return the
    clamped weighted target together with the updated history. -/
def PodManager.calc_num_pods (cfg : ScalerConfig) (hist : List ℚ)
    (numQueued numProcessing : Nat) : Int × List ℚ :=
  let num_prompts : ℚ := (numQueued : ℚ) + (numProcessing : ℚ)
  let h := boundedAppend 300 hist num_prompts
  let avg_load := npAverage h
  let peak_load := pyMax h
  let weighted_load := avg_load * (100 - cfg.POD_SCALING_SENSIVITY) / 100 +
    peak_load * (cfg.POD_SCALING_SENSIVITY / 100)
  (min cfg.POD_MAX_NUM (cfg.POD_MIN_NUM + pyRound (weighted_load * (1.2 : ℚ))), h)

/-- The mutable fields of a `Pod` (`src/core/pod.py` lines 41-46) that the
    lifecycle methods read and write. -/
structure PodSt where
  pod_id : Option String
  pod_info : Option PodInfo
  state : PodState
  latest_updated_time : Int
  is_working : Bool
deriving DecidableEq, Repr

/-- A `while retries < max_retries` retry loop: `attempt i` is the outcome
    the i-th iteration observes (`some` = the iteration returns that value,
    `none` = the iteration failed or was not ready and the loop sleeps and
    retries). Returns `none` when the budget is exhausted. -/
def retryLoop {α : Type} (attempt : Nat → Option α) : Nat → Nat → Option α
  | _retries, 0 => none
  | retries, fuel + 1 =>
    match attempt retries with
    | some v => some v
    | none => retryLoop attempt (retries + 1) fuel

/-- `Pod._create_pod` (`src/core/pod.py` lines 173-203): POST the create
    payload up to `max_retries` times; a success returns the new pod id
    without touching `state`, exhaustion of the budget runs the loop's
    `else` branch and sets `state = Terminated`. -/
def Pod.create_pod (attempt : Nat → Option String) (max_retries : Nat) (s : PodSt) :
    PodSt × Option String :=
  match retryLoop attempt 0 max_retries with
  | some id => (s, some id)
  | none => ({ s with state := PodState.Terminated }, none)

/-- `Pod._get_pod_info` (`src/core/pod.py` lines 205-228): poll the provider
    up to `max_retries` times; `attempt i = some info` models a response
    with truthy `portMappings` and non-empty `publicIp`, upon which the pod
    transitions to `Starting` and the info is returned. Exhaustion sets
    `state = Terminated`. -/
def Pod.get_pod_info (attempt : Nat → Option PodInfo) (max_retries : Nat) (s : PodSt) :
    PodSt × Option PodInfo :=
  match retryLoop attempt 0 max_retries with
  | some info => ({ s with state := PodState.Starting }, some info)
  | none => ({ s with state := PodState.Terminated }, none)

/-- The polling loop of `Pod._resume_pod_and_get_pod_info`
    (`src/core/pod.py` lines 230-257). The `init` flag gates the one-shot
    nested `self.resume()` issued when the first poll shows no network
    identity; that call only touches the provider and re-writes fields that
    already hold the written values at this point (`state = Creating`,
    `pod_info = None`), so it leaves no trace on the embedded fields. -/
def Pod.resumeGetInfoLoop (attempt : Nat → Option PodInfo) :
    Nat → Nat → Bool → Option PodInfo
  | _retries, 0, _init => none
  | retries, fuel + 1, _init =>
    match attempt retries with
    | some info => some info
    | none => Pod.resumeGetInfoLoop attempt (retries + 1) fuel false

/-- `Pod._resume_pod_and_get_pod_info` (`src/core/pod.py` lines 230-257):
    like `Pod.get_pod_info` but with the one-shot nested resume; success
    transitions to `Starting`, exhaustion to `Terminated`. -/
def Pod.resume_pod_and_get_pod_info (attempt : Nat → Option PodInfo)
    (max_retries : Nat) (s : PodSt) : PodSt × Option PodInfo :=
  match Pod.resumeGetInfoLoop attempt 0 max_retries true with
  | some info => ({ s with state := PodState.Starting }, some info)
  | none => ({ s with state := PodState.Terminated }, none)

/-- `Pod._check_server` (`src/core/pod.py` lines 259-283): poll the pod's
    `/health` endpoint up to `max_retries` times; `attempt i = true` models
    the body `status == "ready"`, upon which `latest_updated_time` is set to
    now and the pod transitions to `Free`. Exhaustion sets
    `state = Terminated`. -/
def Pod.check_server (attempt : Nat → Bool) (max_retries : Nat) (now : Int)
    (s : PodSt) : PodSt :=
  match retryLoop (fun i => if attempt i then some () else none) 0 max_retries with
  | some _ => { s with latest_updated_time := now, state := PodState.Free }
  | none => { s with state := PodState.Terminated }

/-- `Pod._initialize` (`src/core/pod.py` lines 150-171), named `initPod`
    here: when `pod_id` is absent run create then poll-info, otherwise run
    the resume-aware poll; in either case stop early when a phase failed
    (its budget-exhaustion already set `Terminated`), and finish with the
    health check. -/
def Pod.initPod (createAttempt : Nat → Option String)
    (infoAttempt : Nat → Option PodInfo) (healthAttempt : Nat → Bool)
    (cmax smax rmax : Nat) (now : Int) (s : PodSt) : PodSt :=
  match s.pod_id with
  | none =>
    let r1 := Pod.create_pod createAttempt cmax s
    match r1.2 with
    | none => r1.1
    | some id =>
      let r2 := Pod.get_pod_info infoAttempt smax { r1.1 with pod_id := some id }
      match r2.2 with
      | none => r2.1
      | some info => Pod.check_server healthAttempt rmax now { r2.1 with pod_info := some info }
  | some _ =>
    let r2 := Pod.resume_pod_and_get_pod_info infoAttempt smax s
    match r2.2 with
    | none => r2.1
    | some info => Pod.check_server healthAttempt rmax now { r2.1 with pod_info := some info }

/-- `Pod.stop` (`src/core/pod.py` lines 374-390): when the provider accepts
    the stop request, clear `pod_info`, set `state = Stopped` (the
    initializer thread is also terminated) and return `True`; otherwise
    return `False` leaving the fields unchanged. -/
def Pod.stop (providerOk : Bool) (s : PodSt) : PodSt × Bool :=
  if providerOk then ({ s with pod_info := none, state := PodState.Stopped }, true)
  else (s, false)

/-- `Pod.resume` (`src/core/pod.py` lines 392-409): when the provider
    accepts the start request, clear `pod_info`, set `state = Creating`,
    restart the initializer (the caller models running `Pod.initPod`
    afterwards) and return `True`; otherwise return `False`. -/
def Pod.resume (providerOk : Bool) (s : PodSt) : PodSt × Bool :=
  if providerOk then ({ s with pod_info := none, state := PodState.Creating }, true)
  else (s, false)

/-- A zero pod state used to instantiate theorems on concrete inputs. -/
def podStZero : PodSt :=
  { pod_id := none, pod_info := none, state := PodState.Creating,
    latest_updated_time := 0, is_working := false }

/-- A sample network identity. -/
def podInfoSample : PodInfo := { port_mappings := [("8188", 30000)], public_ip := "1.1.1.1" }

/-- A pod state holding a provider-assigned id, as after adoption or a
    completed create phase. -/
def podStAdopted : PodSt :=
  { pod_id := some "p1", pod_info := some podInfoSample, state := PodState.Free,
    latest_updated_time := 5, is_working := false }

/-- Lookup in a dict embedded as an association list. -/
def PodManager.dictLookup (m : List (String × Prompt)) (key : String) : Option Prompt :=
  (m.find? (fun kv => kv.1 == key)).map Prod.snd

/-- `d.pop(key, None)`: return the entry (or `None`) and the mapping without
    it. Keys are unique in the embedded dicts (they are fresh uuid4
    strings), so the filter removes exactly the popped entry. -/
def PodManager.dictPop (m : List (String × Prompt)) (key : String) :
    Option Prompt × List (String × Prompt) :=
  match PodManager.dictLookup m key with
  | some p => (some p, m.filter (fun kv => kv.1 != key))
  | none => (none, m)

/-- The polling loop of `PodManager.queue_prompt` (`src/core/pod_manager.py`
    lines 374-386). `completedAt t` is the snapshot of the `completed`
    mapping the loop observes on its t-th iteration; `fuel` is the number of
    iterations the `POD_REQUEST_TIMEOUT_RETRY_MAX` window admits. Each
    iteration pops the key; a hit returns that entry's `result` field and
    the mapping after the pop, and an exhausted window returns the
    "request timeout." error. -/
def PodManager.queuePromptPoll (completedAt : Nat → List (String × Prompt)) (key : String) :
    Nat → Nat → Option PromptResult × List (String × Prompt)
  | t, 0 => (some { status := "error", data := PromptData.msg "request timeout." },
      completedAt t)
  | t, fuel + 1 =>
    match PodManager.dictPop (completedAt t) key with
    | (some p, rest) => (p.result, rest)
    | (none, _) => PodManager.queuePromptPoll completedAt key (t + 1) fuel

/-- `d[key] = prompt` on a dict: replace in place when the key exists,
    append at the end of the insertion order otherwise. -/
def PodManager.dictInsert (m : List (String × Prompt)) (key : String) (p : Prompt) :
    List (String × Prompt) :=
  if m.any (fun kv => kv.1 == key) then
    m.map (fun kv => if kv.1 == key then (key, p) else kv)
  else m ++ [(key, p)]

/-- `PodManager.queue_prompt` (`src/core/pod_manager.py` lines 364-386):
    register the prompt in `queued` under the uuid key, then poll
    `completed` for it. Returns the updated `queued` mapping and the poll's
    outcome (result and last observed `completed` snapshot). -/
def PodManager.queue_prompt (key : String) (prompt : Prompt)
    (queued : List (String × Prompt)) (completedAt : Nat → List (String × Prompt))
    (fuel : Nat) :
    List (String × Prompt) × (Option PromptResult × List (String × Prompt)) :=
  (PodManager.dictInsert queued key prompt, PodManager.queuePromptPoll completedAt key 0 fuel)

/-- A Python value: a string or a tuple of strings (the only shapes
    `Pod.__init__` stores in the four attributes at issue). -/
inductive PyVal where
  | vstr (s : String)
  | vtuple (elems : List String)
deriving DecidableEq, Repr

/-- The four identity/config attributes `Pod.__init__` stores
    (`src/core/pod.py` lines 36-40) and the `@property` accessors
    `name`/`template_id`/`volume_id`/`image_name` return unchanged
    (lines 60-78). -/
structure PodAttrs where
  name : PyVal
  template_id : PyVal
  volume_id : PyVal
  image_name : PyVal
deriving DecidableEq, Repr

/-- The assignments of `Pod.__init__` (`src/core/pod.py` lines 36-40): the
    trailing commas on the `_name`, `_template_id` and `_volume_id`
    assignments make each a one-element tuple, while `_image_name` is
    assigned the plain string. -/
def Pod.init_attrs (name template_id volume_id image_name : String) : PodAttrs :=
  { name := PyVal.vtuple [name],
    template_id := PyVal.vtuple [template_id],
    volume_id := PyVal.vtuple [volume_id],
    image_name := PyVal.vstr image_name }

/-- Python subscripting `v[i]`: tuple indexing, or the i-th character of a
    string; out of range is an error (`none`). -/
def pySubscript (v : PyVal) (i : Nat) : Option PyVal :=
  match v with
  | PyVal.vstr s => (s.toList.get? i).map (fun c => PyVal.vstr (String.mk [c]))
  | PyVal.vtuple xs => (xs.get? i).map PyVal.vstr

/-- The identity fields of the create payload built by `Pod._create_pod`
    (`src/core/pod.py` lines 176-187). -/
structure CreatePayloadFields where
  payloadName : Option PyVal
  networkVolumeId : Option PyVal
  imageName : PyVal
  templateId : Option PyVal
deriving DecidableEq, Repr

/-- The payload construction: `"name": self.name[0]`,
    `"networkVolumeId": self.volume_id[0]`, `"imageName": self.image_name`,
    `"templateId": self.template_id[0]`. -/
def Pod.create_payload (a : PodAttrs) : CreatePayloadFields :=
  { payloadName := pySubscript a.name 0,
    networkVolumeId := pySubscript a.volume_id 0,
    imageName := a.image_name,
    templateId := pySubscript a.template_id 0 }

/-! ## Theorems -/

/-- C1: in the wait loop of `Pod.queue`, the states `Creating`, `Starting`
    and `Processing` keep polling, and `Free` with `pod_info` set proceeds
    to the POST; but because the last branch tests
    `state == PodState.Terminated or PodState.Stopped` — whose right operand
    is a bare, always-truthy enum member — observing `Free` with `pod_info`
    null returns the "Pod is not working." error instead of continuing the
    wait. The claim's error set {Terminated, Stopped} is therefore wrong at
    the input `(Free, None)`, refuting both its "exactly when" and its
    continues-the-wait parts. -/
theorem C1_queue_wait_free_null_info_errors :
    Pod.queueWaitStep PodState.Free none = QueueWaitStep.errorNotWorking ∧
    (∀ info : Option PodInfo,
      Pod.queueWaitStep PodState.Creating info = QueueWaitStep.wait ∧
      Pod.queueWaitStep PodState.Starting info = QueueWaitStep.wait ∧
      Pod.queueWaitStep PodState.Processing info = QueueWaitStep.wait ∧
      Pod.queueWaitStep PodState.Terminated info = QueueWaitStep.errorNotWorking ∧
      Pod.queueWaitStep PodState.Stopped info = QueueWaitStep.errorNotWorking) ∧
    (∀ i : PodInfo, Pod.queueWaitStep PodState.Free (some i) = QueueWaitStep.proceed) := by
  refine ⟨rfl, fun info => ?_, fun i => rfl⟩
  exact ⟨rfl, rfl, rfl, rfl, rfl⟩

/-- C4: the background tasks do fail. One reaper iteration with any live
    prompt raises `AttributeError`, because `_clear_prompts` reads
    `prompt.start_time` and the `Prompt` class defines no such attribute;
    one control-loop dispatch iteration raises `StopIteration` when the
    queued mapping is empty at the `next(iter(...))` call (as happens when
    the reaper empties it between the `len` check and the pop). With all
    three mappings empty, a reaper iteration does complete. -/
theorem C4_background_tasks_raise :
    PodManager.clearPromptsIter
        [("k1", { url := "u", workflow_id := 1, result := none })] [] [] 100 60 =
      Except.error (PyExn.attributeError "start_time") ∧
    PodManager.nextIterDict [] = Except.error PyExn.stopIteration ∧
    PodManager.clearPromptsIter [] [] [] 100 60 = Except.ok ([], [], []) := by
  refine ⟨?_, rfl, rfl⟩
  rfl

/-- C10: the constructor stores `name`, `template_id` and `volume_id` as
    one-element tuples (trailing commas) and `image_name` as the plain
    string; the accessors return these stored values; and the create payload
    nevertheless carries the original strings for all four fields because
    `_create_pod` indexes element 0 of each tuple. -/
theorem C10_ctor_tuple_fields (n t v i : String) :
    (Pod.init_attrs n t v i).name = PyVal.vtuple [n] ∧
    (Pod.init_attrs n t v i).template_id = PyVal.vtuple [t] ∧
    (Pod.init_attrs n t v i).volume_id = PyVal.vtuple [v] ∧
    (Pod.init_attrs n t v i).image_name = PyVal.vstr i ∧
    Pod.create_payload (Pod.init_attrs n t v i) =
      { payloadName := some (PyVal.vstr n), networkVolumeId := some (PyVal.vstr v),
        imageName := PyVal.vstr i, templateId := some (PyVal.vstr t) } :=
  ⟨rfl, rfl, rfl, rfl, rfl⟩

/-- Helper: the pipeline invariant holds after any single event. -/
theorem promptLifeInv_step : ∀ s t : PromptLife, promptLifeInv s → PromptStep s t →
    promptLifeInv t := by
  rintro ⟨q, p, c, pc⟩ t hs hst
  cases hst <;> cases pc <;> simp_all [promptLifeInv]

/-- Helper: the pipeline invariant bounds the membership count by one. -/
theorem memCount_le_one_of_inv : ∀ s : PromptLife, promptLifeInv s → memCount s ≤ 1 := by
  rintro ⟨q, p, c, pc⟩ hs
  cases pc <;> cases q <;> cases p <;> cases c <;> simp_all [promptLifeInv, memCount]

/-- C2 (amended): between its registration by `queue_prompt` and its
    consumption or expiry, a prompt id is in at most one of the three
    mappings at every instant; "exactly one" fails, see the counterexample. -/
theorem C2_at_most_one_mapping (s : PromptLife) (h : PromptReachable s) : memCount s ≤ 1 := by
  have hinv : promptLifeInv s := by
    induction h with
    | init => exact ⟨rfl, rfl⟩
    | step s t hr hst ih => exact promptLifeInv_step s t ih hst
  exact memCount_le_one_of_inv s hinv

/-- Witness: the amended C2 theorem applied at the registration state. -/
theorem C2_at_most_one_mapping_witness : memCount promptLifeInit ≤ 1 :=
  C2_at_most_one_mapping promptLifeInit PromptReachable.init

/-- C2 counterexample: one `PromptStep.pop` event after registration — the
    control loop's `queued_prompts.pop` at `src/core/pod_manager.py` line
    256, before the dispatch thread's insert at line 316 — reaches a state
    in which a dispatch is in flight and the id is in none of the three
    mappings, refuting "present in exactly one ... never absent from all
    three while a dispatch of it is in flight". -/
theorem C2_counterexample_absent_from_all :
    PromptReachable ⟨false, false, false, DispatchPC.popped⟩ ∧
    dispatchInFlight ⟨false, false, false, DispatchPC.popped⟩ = true ∧
    memCount ⟨false, false, false, DispatchPC.popped⟩ = 0 := by
  refine ⟨?_, rfl, rfl⟩
  exact PromptReachable.step _ _ PromptReachable.init (PromptStep.pop promptLifeInit rfl rfl)

/-- C3 (amended): a new dispatch task for a pod comes into existence only
    at a moment when the control loop observed the pod's `is_working` flag
    to be false (`if pod.is_working: continue`). What fails in the claim is
    "at most one dispatch task exists per pod at any time": the flag is set
    by the dispatch task itself at `src/core/pod_manager.py` line 317, not
    at spawn time, so it does not prevent a second spawn in that window —
    see the counterexample. -/
theorem C3_spawn_only_when_not_working (s t : PodLease) (h : LeaseStep s t)
    (hinc : inFlightTasks s < inFlightTasks t) : s.working = false := by
  cases h with
  | spawn hw => exact hw
  | start hlt => exfalso; simp [inFlightTasks] at hinc; omega
  | finish hlt => exfalso; simp [inFlightTasks] at hinc; omega

/-- Witness: the amended C3 theorem applied to the first spawn from an idle
    pod. -/
theorem C3_spawn_only_when_not_working_witness : podLeaseInit.working = false :=
  C3_spawn_only_when_not_working podLeaseInit ⟨false, 1, 0⟩
    (LeaseStep.spawn podLeaseInit rfl) (by decide)

/-- C3 counterexample: two consecutive spawns — the control loop's dispatch
    scan runs twice (two queued prompts) before either started thread
    executes `pod.is_working = True` — reach a state with two dispatch tasks
    in existence for the same pod, refuting "at every instant at most one
    dispatch task exists for that pod". -/
theorem C3_counterexample_two_tasks :
    LeaseReachable ⟨false, 2, 0⟩ ∧ inFlightTasks ⟨false, 2, 0⟩ = 2 := by
  refine ⟨?_, rfl⟩
  exact LeaseReachable.step _ _
    (LeaseReachable.step _ _ LeaseReachable.init (LeaseStep.spawn podLeaseInit rfl))
    (LeaseStep.spawn ⟨false, 1, 0⟩ rfl)

/-- Helper: a retry loop whose every attempt fails exhausts its budget. -/
theorem retryLoop_eq_none {α : Type} (attempt : Nat → Option α)
    (h : ∀ i, attempt i = none) : ∀ r fuel, retryLoop attempt r fuel = none := by
  intro r fuel
  induction fuel generalizing r with
  | zero => rfl
  | succ n ih =>
    simp only [retryLoop, h r]
    exact ih (r + 1)

/-- Helper: the resume-aware poll loop with every attempt failing exhausts
    its budget. -/
theorem resumeGetInfoLoop_eq_none (attempt : Nat → Option PodInfo)
    (h : ∀ i, attempt i = none) :
    ∀ r fuel init, Pod.resumeGetInfoLoop attempt r fuel init = none := by
  intro r fuel
  induction fuel generalizing r with
  | zero => intro _init; rfl
  | succ n ih =>
    intro init
    simp only [Pod.resumeGetInfoLoop, h r]
    exact ih (r + 1) false

/-- C7: in each initializer phase — create, poll-info (both its fresh and
    its adopted/resumed variant) and health-check — exhausting the phase's
    retry budget with every attempt failing sets the pod's state to
    `Terminated`. -/
theorem C7_retry_exhaustion_terminates
    (ca : Nat → Option String) (ia : Nat → Option PodInfo) (ha : Nat → Bool)
    (cmax smax rmax : Nat) (s1 s2 s3 s4 : PodSt) (now : Int)
    (hca : ∀ i, ca i = none) (hia : ∀ i, ia i = none) (hha : ∀ i, ha i = false) :
    (Pod.create_pod ca cmax s1).1.state = PodState.Terminated ∧
    (Pod.get_pod_info ia smax s2).1.state = PodState.Terminated ∧
    (Pod.resume_pod_and_get_pod_info ia smax s3).1.state = PodState.Terminated ∧
    (Pod.check_server ha rmax now s4).state = PodState.Terminated := by
  refine ⟨?_, ?_, ?_, ?_⟩
  · simp [Pod.create_pod, retryLoop_eq_none ca hca]
  · simp [Pod.get_pod_info, retryLoop_eq_none ia hia]
  · simp [Pod.resume_pod_and_get_pod_info, resumeGetInfoLoop_eq_none ia hia]
  · have hh : ∀ i, (fun j => if ha j then some () else none) i = none := by
      intro i
      simp [hha i]
    simp [Pod.check_server, retryLoop_eq_none _ hh]

/-- Witness: C7 at concrete always-failing oracles and budget 3. -/
theorem C7_retry_exhaustion_terminates_witness :
    (Pod.create_pod (fun _ => none) 3 podStZero).1.state = PodState.Terminated ∧
    (Pod.get_pod_info (fun _ => none) 3 podStZero).1.state = PodState.Terminated ∧
    (Pod.resume_pod_and_get_pod_info (fun _ => none) 3 podStAdopted).1.state
      = PodState.Terminated ∧
    (Pod.check_server (fun _ => false) 3 0 podStZero).state = PodState.Terminated :=
  C7_retry_exhaustion_terminates (fun _ => none) (fun _ => none) (fun _ => false)
    3 3 3 podStZero podStZero podStAdopted podStZero 0
    (fun _ => rfl) (fun _ => rfl) (fun _ => rfl)

/-- C9: for a pod holding a provider-assigned `pod_id`, a successful
    `stop()` clears `pod_info` and sets `Stopped`; a following successful
    `resume()` clears `pod_info`, sets `Creating` and restarts the
    initializer; and with a responsive provider (first info poll and first
    health check succeed) the restarted initializer takes the
    `pod_id`-present branch — never the create step — so the pod returns to
    `Free` with the same `pod_id`. -/
theorem C9_stop_resume_roundtrip
    (s : PodSt) (pid : String) (hpid : s.pod_id = some pid)
    (ca : Nat → Option String) (ia : Nat → Option PodInfo) (ha : Nat → Bool)
    (info : PodInfo) (hia : ia 0 = some info) (hha : ha 0 = true)
    (cmax smax rmax : Nat) (hs : 0 < smax) (hr : 0 < rmax) (now : Int) :
    (Pod.stop true s).2 = true ∧
    (Pod.stop true s).1.state = PodState.Stopped ∧
    (Pod.stop true s).1.pod_info = none ∧
    (Pod.resume true (Pod.stop true s).1).2 = true ∧
    (Pod.resume true (Pod.stop true s).1).1.state = PodState.Creating ∧
    (Pod.resume true (Pod.stop true s).1).1.pod_info = none ∧
    (Pod.initPod ca ia ha cmax smax rmax now
        (Pod.resume true (Pod.stop true s).1).1).state = PodState.Free ∧
    (Pod.initPod ca ia ha cmax smax rmax now
        (Pod.resume true (Pod.stop true s).1).1).pod_id = some pid := by
  obtain ⟨m, rfl⟩ : ∃ m, smax = m + 1 := ⟨smax - 1, by omega⟩
  obtain ⟨r, rfl⟩ : ∃ r, rmax = r + 1 := ⟨rmax - 1, by omega⟩
  simp [Pod.stop, Pod.resume, Pod.initPod, Pod.resume_pod_and_get_pod_info,
    Pod.resumeGetInfoLoop, Pod.check_server, retryLoop, hpid, hia, hha]

/-- Witness: C9 on the adopted pod with provider oracles that answer the
    first poll and the first health check. -/
theorem C9_stop_resume_roundtrip_witness :
    (Pod.stop true podStAdopted).2 = true ∧
    (Pod.stop true podStAdopted).1.state = PodState.Stopped ∧
    (Pod.stop true podStAdopted).1.pod_info = none ∧
    (Pod.resume true (Pod.stop true podStAdopted).1).2 = true ∧
    (Pod.resume true (Pod.stop true podStAdopted).1).1.state = PodState.Creating ∧
    (Pod.resume true (Pod.stop true podStAdopted).1).1.pod_info = none ∧
    (Pod.initPod (fun _ => none) (fun _ => some podInfoSample) (fun _ => true)
        3 2 2 9 (Pod.resume true (Pod.stop true podStAdopted).1).1).state = PodState.Free ∧
    (Pod.initPod (fun _ => none) (fun _ => some podInfoSample) (fun _ => true)
        3 2 2 9 (Pod.resume true (Pod.stop true podStAdopted).1).1).pod_id = some "p1" :=
  C9_stop_resume_roundtrip podStAdopted "p1" rfl (fun _ => none)
    (fun _ => some podInfoSample) (fun _ => true) podInfoSample rfl rfl
    3 2 2 (by decide) (by decide) 9

/-- C6: the autoscaler target equals
    `min(POD_MAX_NUM, POD_MIN_NUM + round(1.2 * (avg*(100-S)/100 + peak*S/100)))`
    where `avg` is the mean and `peak` the maximum of the bounded history
    after appending the current sample `len(queued) + len(processing)`,
    for any sensitivity `S ∈ [0, 100]`. -/
theorem C6_autoscaler_target (cfg : ScalerConfig) (hist : List ℚ) (nq np : Nat)
    (hS0 : 0 ≤ cfg.POD_SCALING_SENSIVITY) (hS1 : cfg.POD_SCALING_SENSIVITY ≤ 100) :
    (PodManager.calc_num_pods cfg hist nq np).1 =
      min cfg.POD_MAX_NUM (cfg.POD_MIN_NUM +
        pyRound ((1.2 : ℚ) *
          (npAverage (boundedAppend 300 hist ((nq : ℚ) + (np : ℚ))) *
              (100 - cfg.POD_SCALING_SENSIVITY) / 100 +
            pyMax (boundedAppend 300 hist ((nq : ℚ) + (np : ℚ))) *
              cfg.POD_SCALING_SENSIVITY / 100))) := by
  have h : ∀ a b : ℚ,
      (a * (100 - cfg.POD_SCALING_SENSIVITY) / 100 +
          b * (cfg.POD_SCALING_SENSIVITY / 100)) * (1.2 : ℚ) =
        (1.2 : ℚ) * (a * (100 - cfg.POD_SCALING_SENSIVITY) / 100 +
          b * cfg.POD_SCALING_SENSIVITY / 100) := by
    intro a b
    ring
  simp only [PodManager.calc_num_pods]
  rw [h]

/-- Witness: C6 at `POD_MIN_NUM = 1`, `POD_MAX_NUM = 5`, `S = 50`, an empty
    history and a sample of 2 queued plus 1 processing prompts. -/
theorem C6_autoscaler_target_witness :
    (PodManager.calc_num_pods ⟨1, 5, 50⟩ [] 2 1).1 =
      min (5 : Int) (1 +
        pyRound ((1.2 : ℚ) *
          (npAverage (boundedAppend 300 [] ((2 : ℚ) + (1 : ℚ))) * (100 - 50) / 100 +
            pyMax (boundedAppend 300 [] ((2 : ℚ) + (1 : ℚ))) * 50 / 100))) :=
  C6_autoscaler_target ⟨1, 5, 50⟩ [] 2 1 (by norm_num) (by norm_num)

/-- Helper: after filtering a key out of a mapping, looking it up misses. -/
theorem dictLookup_filter_self (m : List (String × Prompt)) (key : String) :
    PodManager.dictLookup (m.filter (fun kv => kv.1 != key)) key = none := by
  induction m with
  | nil => rfl
  | cons kv rest ih =>
    by_cases h : kv.1 = key
    · simpa [List.filter_cons, h] using ih
    · simpa [List.filter_cons, PodManager.dictLookup, List.find?_cons, h] using ih

/-- Helper: the `queue_prompt` poll loop returns the "request timeout."
    error when the key never shows up in `completed` within the window. -/
theorem queuePromptPoll_timeout (completedAt : Nat → List (String × Prompt)) (key : String) :
    ∀ fuel s,
      (∀ u, s ≤ u → u < s + fuel → PodManager.dictLookup (completedAt u) key = none) →
      (PodManager.queuePromptPoll completedAt key s fuel).1 =
        some { status := "error", data := PromptData.msg "request timeout." } := by
  intro fuel
  induction fuel with
  | zero => intro s _h; rfl
  | succ n ih =>
    intro s h
    have h0 : PodManager.dictLookup (completedAt s) key = none := h s le_rfl (by omega)
    simp only [PodManager.queuePromptPoll, PodManager.dictPop, h0]
    exact ih (s + 1) (fun u hu1 hu2 => h u (by omega) (by omega))

/-- Helper: the poll loop returns the entry's result (and the mapping with
    the entry popped) at the first tick the key shows up in `completed`. -/
theorem queuePromptPoll_found (completedAt : Nat → List (String × Prompt)) (key : String)
    (r : Prompt) :
    ∀ fuel s t, s ≤ t → t < s + fuel →
      PodManager.dictLookup (completedAt t) key = some r →
      (∀ u, s ≤ u → u < t → PodManager.dictLookup (completedAt u) key = none) →
      PodManager.queuePromptPoll completedAt key s fuel =
        (r.result, (completedAt t).filter (fun kv => kv.1 != key)) := by
  intro fuel
  induction fuel with
  | zero => intro s t h1 h2 _ _; omega
  | succ n ih =>
    intro s t hst hlt hr hnone
    by_cases hts : t = s
    · subst hts
      simp only [PodManager.queuePromptPoll, PodManager.dictPop, hr]
    · have h0 : PodManager.dictLookup (completedAt s) key = none :=
        hnone s le_rfl (by omega)
      simp only [PodManager.queuePromptPoll, PodManager.dictPop, h0]
      exact ih (s + 1) t (by omega) (by omega) hr (fun u hu1 hu2 => hnone u (by omega) hu2)

/-- C8: `queue_prompt` registers the prompt in `queued` under its fresh key,
    and then either returns the result attached to the matching entry that
    appears in `completed` within the timeout window — popping (removing)
    that entry — or, when no matching entry appears within the window,
    returns the "request timeout." error. -/
theorem C8_enqueue_contract (key : String) (p : Prompt) (queued : List (String × Prompt))
    (completedAt : Nat → List (String × Prompt)) (fuel t : Nat) (r : Prompt)
    (hfresh : ∀ kv ∈ queued, kv.1 ≠ key) :
    (PodManager.queue_prompt key p queued completedAt fuel).1 = queued ++ [(key, p)] ∧
    (key, p) ∈ (PodManager.queue_prompt key p queued completedAt fuel).1 ∧
    (t < fuel → PodManager.dictLookup (completedAt t) key = some r →
      (∀ u, u < t → PodManager.dictLookup (completedAt u) key = none) →
      (PodManager.queue_prompt key p queued completedAt fuel).2.1 = r.result ∧
      PodManager.dictLookup
        (PodManager.queue_prompt key p queued completedAt fuel).2.2 key = none) ∧
    ((∀ u, u < fuel → PodManager.dictLookup (completedAt u) key = none) →
      (PodManager.queue_prompt key p queued completedAt fuel).2.1 =
        some { status := "error", data := PromptData.msg "request timeout." }) := by
  have hany : queued.any (fun kv => kv.1 == key) = false := by
    rw [List.any_eq_false]
    intro kv hkv
    simp [hfresh kv hkv]
  have hins : PodManager.dictInsert queued key p = queued ++ [(key, p)] := by
    simp [PodManager.dictInsert, hany]
  refine ⟨hins, ?_, ?_, ?_⟩
  · simp [PodManager.queue_prompt, hins]
  · intro hlt hr hb
    have h := queuePromptPoll_found completedAt key r fuel 0 t (Nat.zero_le t) (by omega) hr
      (fun u _ hu => hb u hu)
    constructor
    · simp [PodManager.queue_prompt, h]
    · simp [PodManager.queue_prompt, h, dictLookup_filter_self]
  · intro hb
    have h := queuePromptPoll_timeout completedAt key fuel 0 (fun u _ hu => hb u (by omega))
    simpa [PodManager.queue_prompt] using h

/-- Witness: C8 with an empty queued mapping and a completed entry appearing
    at tick 1 inside a window of 3 polls. -/
theorem C8_enqueue_contract_witness :
    (PodManager.queue_prompt "k" ⟨"u", 1, none⟩ []
        (fun u => if u = 1 then
          [("k", (⟨"u", 1, some ⟨"success", PromptData.payload "ok" "image/png"⟩⟩ : Prompt))]
          else []) 3).1 = [] ++ [("k", (⟨"u", 1, none⟩ : Prompt))] ∧
    (PodManager.queue_prompt "k" ⟨"u", 1, none⟩ []
        (fun u => if u = 1 then
          [("k", (⟨"u", 1, some ⟨"success", PromptData.payload "ok" "image/png"⟩⟩ : Prompt))]
          else []) 3).2.1 =
      some ⟨"success", PromptData.payload "ok" "image/png"⟩ := by
  have h := C8_enqueue_contract "k" ⟨"u", 1, none⟩ []
    (fun u => if u = 1 then
      [("k", (⟨"u", 1, some ⟨"success", PromptData.payload "ok" "image/png"⟩⟩ : Prompt))]
      else []) 3 1
    ⟨"u", 1, some ⟨"success", PromptData.payload "ok" "image/png"⟩⟩
    (by simp)
  refine ⟨h.1, ?_⟩
  have h3 := h.2.2.1 (by omega) (by rfl) ?_
  · exact h3.1
  · intro u hu
    interval_cases u
    rfl

/-- Helper: the lexicographic key order is reflexive. -/
theorem keyLex_refl (a : Nat × Int) : keyLex a a = true := by
  simp [keyLex]

/-- Helper: the lexicographic key order is total. -/
theorem keyLex_total (a b : Nat × Int) : (keyLex a b || keyLex b a) = true := by
  rcases a with ⟨a1, a2⟩
  rcases b with ⟨b1, b2⟩
  simp [keyLex]
  omega

/-- Helper: the lexicographic key order is transitive. -/
theorem keyLex_trans (a b c : Nat × Int) (h1 : keyLex a b = true) (h2 : keyLex b c = true) :
    keyLex a c = true := by
  rcases a with ⟨a1, a2⟩
  rcases b with ⟨b1, b2⟩
  rcases c with ⟨c1, c2⟩
  simp [keyLex] at h1 h2 ⊢
  omega

/-- Helper: in a list that is pairwise descending under `ge`, the first
    element satisfying `p` is `ge` every element satisfying `p`. -/
theorem find?_max_of_pairwise {α : Type} (ge : α → α → Bool) (p : α → Bool)
    (hrefl : ∀ a, ge a a = true) :
    ∀ l : List α, l.Pairwise (fun a b => ge a b = true) →
      ∀ x, l.find? p = some x → ∀ y ∈ l, p y = true → ge x y = true := by
  intro l
  induction l with
  | nil =>
    intro _ x hx
    simp at hx
  | cons a rest ih =>
    intro hpw x hx y hy hpy
    rw [List.pairwise_cons] at hpw
    rcases hpw with ⟨ha, hrest⟩
    cases hpa : p a
    · simp [List.find?_cons, hpa] at hx
      rcases List.mem_cons.mp hy with h | h
      · subst h
        rw [hpy] at hpa
        cases hpa
      · exact ih hrest x hx y h hpy
    · simp [List.find?_cons, hpa] at hx
      subst hx
      rcases List.mem_cons.mp hy with h | h
      · subst h
        exact hrefl _
      · exact ha y h

/-- Helper: the sort comparison is reflexive. -/
theorem podGE_refl (a : PodView) : podGE a a = true := keyLex_refl (dispatchKey a)

/-- Helper: the sort comparison is transitive. -/
theorem podGE_trans (a b c : PodView) (h1 : podGE a b = true) (h2 : podGE b c = true) :
    podGE a c = true :=
  keyLex_trans (dispatchKey c) (dispatchKey b) (dispatchKey a) h2 h1

/-- Helper: the sort comparison is total. -/
theorem podGE_total (a b : PodView) : (podGE a b || podGE b a) = true :=
  keyLex_total (dispatchKey b) (dispatchKey a)

/-- C5: when the dispatch scan settles on a pod, that pod passed every skip
    filter — `is_working` false, not `Terminated`, and if `Stopped` its
    `resume()` succeeded — and its priority key is maximal among all pods
    acceptable to the scan; the queued entry then removed is the
    first-inserted (oldest) key of the mapping and the remainder keeps the
    enqueue order, so prompts are consumed in enqueue order. -/
theorem C5_dispatch_selection (resumeOk : PodView → Bool) (pods : List PodView)
    (k : String) (pr : Prompt) (rest : List (String × Prompt)) (chosen : PodView)
    (hsel : selectPod resumeOk pods = some chosen) :
    chosen ∈ pods ∧
    chosen.is_working = false ∧
    chosen.state ≠ PodState.Terminated ∧
    (chosen.state = PodState.Stopped → resumeOk chosen = true) ∧
    (∀ q ∈ pods, dispatchAccept resumeOk q = true →
      keyLex (dispatchKey q) (dispatchKey chosen) = true) ∧
    (dispatchOnce resumeOk pods ((k, pr) :: rest)).1 = some (chosen, k, pr) ∧
    (dispatchOnce resumeOk pods ((k, pr) :: rest)).2 = rest := by
  have hperm := List.mergeSort_perm pods podGE
  have hacc : dispatchAccept resumeOk chosen = true := List.find?_some hsel
  have hmem : chosen ∈ pods := hperm.mem_iff.mp (List.mem_of_find?_eq_some hsel)
  have hsorted : (pods.mergeSort podGE).Pairwise (fun a b => podGE a b = true) :=
    List.sorted_mergeSort podGE_trans podGE_total pods
  have hmax : ∀ q ∈ pods, dispatchAccept resumeOk q = true →
      keyLex (dispatchKey q) (dispatchKey chosen) = true := by
    intro q hq hqacc
    exact find?_max_of_pairwise podGE (dispatchAccept resumeOk)
      (fun a => keyLex_refl (dispatchKey a)) (pods.mergeSort podGE) hsorted
      chosen hsel q (hperm.mem_iff.mpr hq) hqacc
  simp only [dispatchAccept, Bool.and_eq_true, Bool.not_eq_true', Bool.or_eq_true,
    Bool.not_eq_true, beq_eq_false_iff_ne, ne_eq, beq_iff_eq] at hacc
  refine ⟨hmem, hacc.1.1, hacc.1.2, ?_, hmax, ?_, ?_⟩
  · intro hstopped
    rcases hacc.2 with h | h
    · exact absurd hstopped h
    · exact h
  · simp [dispatchOnce, hsel]
  · simp [dispatchOnce, hsel]

/-- Witness: C5 on a one-pod fleet with one queued prompt. -/
theorem C5_dispatch_selection_witness :
    (dispatchOnce (fun _ => true) [⟨0, PodState.Free, false, 7⟩]
        [("k1", (⟨"u", 1, none⟩ : Prompt))]).1 =
      some (⟨0, PodState.Free, false, 7⟩, "k1", (⟨"u", 1, none⟩ : Prompt)) ∧
    (dispatchOnce (fun _ => true) [⟨0, PodState.Free, false, 7⟩]
        [("k1", (⟨"u", 1, none⟩ : Prompt))]).2 = [] := by
  have hsel : selectPod (fun _ => true) [⟨0, PodState.Free, false, 7⟩]
      = some ⟨0, PodState.Free, false, 7⟩ := by
    unfold selectPod
    rw [List.mergeSort_singleton]
    rfl
  have h := C5_dispatch_selection (fun _ => true) [⟨0, PodState.Free, false, 7⟩]
    "k1" ⟨"u", 1, none⟩ [] ⟨0, PodState.Free, false, 7⟩ hsel
  exact ⟨h.2.2.2.2.2.1, h.2.2.2.2.2.2⟩
